import Mathlib

/-!
Verification of the OTP-over-Telegram server (three source variants:
server.js, a webhook variant, and a direct-API variant). The embedding
models the in-memory stores as association lists with JavaScript Map
semantics (insertion order preserved, set-in-place on existing keys),
the verify-otp endpoint, the /start handler, the expiry sweeper, and the
session-id generator. Timestamps are milliseconds as natural numbers;
absent JSON fields are modelled as the empty string, which the code's
falsiness guard treats identically.
-/

/-- JavaScript-Map-style set on an association list: if the key is present,
the value is replaced in place (insertion order kept); otherwise the pair is
appended at the end. -/
def mapSet {κ α : Type} [BEq κ] (m : List (κ × α)) (k : κ) (v : α) :
    List (κ × α) :=
  if m.any (fun e => e.1 == k) then
    m.map (fun e => if e.1 == k then (k, v) else e)
  else
    m ++ [(k, v)]

/-- JavaScript-Map-style get on an association list. -/
def mapGet {κ α : Type} [BEq κ] (m : List (κ × α)) (k : κ) : Option α :=
  (m.find? (fun e => e.1 == k)).map (fun e => e.2)

/-- JavaScript-Map-style delete on an association list. -/
def mapDelete {κ α : Type} [BEq κ] (m : List (κ × α)) (k : κ) :
    List (κ × α) :=
  m.filter (fun e => !(e.1 == k))

/-- One entry of otpStorage: chatId maps to otp, username, timestamp
(server.js line 17). -/
structure OtpRecord where
  otp : String
  username : String
  timestamp : Nat
deriving DecidableEq

/-- One entry of userSessions: sessionId maps to chatId, username,
verified, timestamp (server.js lines 107-112). -/
structure SessionRecord where
  chatId : Int
  username : String
  verified : Bool
  timestamp : Nat
deriving DecidableEq

/-- The two in-memory stores of the server (server.js lines 17-18). -/
structure ServerState where
  otpStorage : List (Int × OtpRecord)
  userSessions : List (String × SessionRecord)
deriving DecidableEq

/-- The 10-minute expiry threshold in milliseconds, the literal
10 * 60 * 1000 used at server.js lines 88, 153 and 163. -/
def otpTTLMs : Nat := 10 * 60 * 1000

/-- The period passed to setInterval for the expiry sweeper,
5 * 60 * 1000 ms (server.js line 168 and the webhook variant line 238). -/
def sweepIntervalMs : Nat := 5 * 60 * 1000

/-- JavaScript String.prototype.toLowerCase, modelled character by
character (the code only ever lowercases usernames for comparison). -/
def jsToLower (s : String) : String :=
  String.mk (s.data.map Char.toLower)

/-- The match condition of the scan loop at server.js line 86:
case-insensitive comparison of the stored username with the submitted one,
and exact comparison of the stored otp with the submitted one. -/
def matchesCred (rec : OtpRecord) (username otp : String) : Bool :=
  jsToLower rec.username == jsToLower username && rec.otp == otp

/-- The scan loop of the verify endpoint (server.js lines 85-99): first
entry in Map iteration order whose record matches the submitted pair. -/
def findFirstMatch (store : List (Int × OtpRecord)) (username otp : String) :
    Option (Int × OtpRecord) :=
  store.find? (fun e => matchesCred e.2 username otp)

/-- Error outcomes of POST /api/verify-otp, all returned as HTTP 400:
InvalidRequest is the missing-field error, InvalidCredentials the
no-matching-record error, Expired the stale-record error. -/
inductive VerifyError
  | InvalidRequest
  | InvalidCredentials
  | Expired
deriving DecidableEq

/-- The success payload of POST /api/verify-otp (server.js lines 120-125). -/
structure VerifyOk where
  sessionId : String
  username : String
deriving DecidableEq

instance {ε α : Type} [DecidableEq ε] [DecidableEq α] :
    DecidableEq (Except ε α)
  | Except.ok a, Except.ok b =>
    if h : a = b then isTrue (congrArg Except.ok h)
    else isFalse (fun hc => h (Except.ok.inj hc))
  | Except.error a, Except.error b =>
    if h : a = b then isTrue (congrArg Except.error h)
    else isFalse (fun hc => h (Except.error.inj hc))
  | Except.ok _, Except.error _ => isFalse (fun hc => Except.noConfusion hc)
  | Except.error _, Except.ok _ => isFalse (fun hc => Except.noConfusion hc)

/-- POST /api/verify-otp (server.js lines 74-126). The fresh session id
produced by generateSessionId is passed in as a parameter; now is the
value of the clock during the request. Absent body fields are modelled as
the empty string, matching the falsiness guard at line 77. -/
def verifyOtp (st : ServerState) (now : Nat) (freshSessionId : String)
    (username otp : String) : Except VerifyError VerifyOk × ServerState :=
  if username == "" || otp == "" then
    (Except.error VerifyError.InvalidRequest, st)
  else
    match findFirstMatch st.otpStorage username otp with
    | none => (Except.error VerifyError.InvalidCredentials, st)
    | some (chatId, userData) =>
      if now - userData.timestamp > otpTTLMs then
        (Except.error VerifyError.Expired,
         { st with otpStorage := mapDelete st.otpStorage chatId })
      else
        (Except.ok { sessionId := freshSessionId,
                     username := userData.username },
         { otpStorage := mapDelete st.otpStorage chatId,
           userSessions := mapSet st.userSessions freshSessionId
             { chatId := chatId, username := userData.username,
               verified := true, timestamp := now } })

/-- GET /api/session/:sessionId lookup (server.js lines 129-142). -/
def getSession (st : ServerState) (sessionId : String) :
    Option SessionRecord :=
  mapGet st.userSessions sessionId

/-- JavaScript a || b for strings where undefined is modelled as none:
both none and the empty string are falsy. -/
def jsOrElse (a : Option String) (b : String) : String :=
  match a with
  | none => b
  | some s => if s == "" then b else s

/-- Display-name derivation of server.js line 33:
msg.from.username || msg.from.first_name || 'User'. -/
def deriveDisplayName (tgUsername tgFirstName : Option String) : String :=
  jsOrElse tgUsername (jsOrElse tgFirstName "User")

/-- The store mutation of the /start handler (server.js lines 31-43):
otpStorage.set(chatId, ...) unconditionally overwrites any prior record
for that chat. The generated otp and the clock value are parameters. -/
def handleStart (st : ServerState) (chatId : Int)
    (tgUsername tgFirstName : Option String) (otp : String) (now : Nat) :
    ServerState :=
  { st with otpStorage := (mapSet st.otpStorage chatId
      { otp := otp, username := deriveDisplayName tgUsername tgFirstName,
        timestamp := now }) }

/-- One tick of the expiry sweeper (server.js lines 160-168): delete every
otpStorage entry older than the 10-minute threshold; userSessions is not
touched. -/
def sweepTick (st : ServerState) (now : Nat) : ServerState :=
  { st with otpStorage := (st.otpStorage.filter
      (fun e => !(now - e.2.timestamp > otpTTLMs))) }

/-- Digit character of base-36 value n (0-9 then a-z), as produced by
JavaScript Number.prototype.toString(36). -/
def base36DigitChar (n : Nat) : Char :=
  if n < 10 then Char.ofNat (48 + n) else Char.ofNat (87 + n)

/-- Fractional base-36 digits of x / 2 ^ 53 for a double mantissa x,
produced most significant first and stopping when the remainder is zero
(so no trailing zeros). The expansion of a dyadic rational terminates
within 27 base-36 digits, so any fuel of at least 27 computes it all;
54 is comfortably enough. -/
def base36FracDigits : Nat → Nat → List Char
  | 0, _ => []
  | _, 0 => []
  | fuel + 1, x =>
    let y := x * 36
    base36DigitChar (y / 2 ^ 53) :: base36FracDigits fuel (y % 2 ^ 53)

/-- JavaScript (k / 2 ^ 53).toString(36) for a Math.random outcome
modelled as the dyadic rational k / 2 ^ 53 with k < 2 ^ 53: the string
is 0 for zero and otherwise 0. followed by the fractional base-36
expansion without trailing zeros. -/
def jsRandomToString36 (k : Nat) : String :=
  if k = 0 then "0"
  else String.mk ('0' :: '.' :: base36FracDigits 54 k)

/-- One fragment of the session id: Math.random().toString(36)
.substring(2, 15) (server.js line 27), i.e. drop the two characters 0.
and keep at most the next 13 characters. -/
def sessionFragment (k : Nat) : String :=
  String.mk (((jsRandomToString36 k).data.drop 2).take 13)

/-- generateSessionId (server.js lines 26-28): concatenation of two
fragments built from two independent Math.random outcomes k1 / 2 ^ 53
and k2 / 2 ^ 53. -/
def generateSessionId (k1 k2 : Nat) : String :=
  sessionFragment k1 ++ sessionFragment k2

/-- A piece of a JavaScript template literal: either literal text or an
interpolated variable reference. -/
inductive TemplatePart
  | lit (s : String)
  | ref (v : String)
deriving DecidableEq

/-- Evaluation of a template literal left to right in an environment of
in-scope variables: a reference to a variable not in scope raises a
ReferenceError, exactly as JavaScript does. -/
def evalTemplate (env : List (String × String)) :
    List TemplatePart → Except String String
  | [] => Except.ok ""
  | TemplatePart.lit s :: rest =>
    (evalTemplate env rest).map (fun t => s ++ t)
  | TemplatePart.ref v :: rest =>
    match mapGet env v with
    | none => Except.error ("ReferenceError: " ++ v ++ " is not defined")
    | some val => (evalTemplate env rest).map (fun t => val ++ t)

/-- The fallback message template of the webhook variant, line 86:
Your OTP is: then the interpolation of otp, then the expiry notice. -/
def fallbackTemplate : List TemplatePart :=
  [TemplatePart.lit "Your OTP is: ", TemplatePart.ref "otp",
   TemplatePart.lit "\nExpires in 10 minutes."]

/-- Variables visible inside the catch block of the /start handler of the
webhook variant (lines 81-90), with their string values: the handler
parameter msg projections chatId and username, the outer let startTime,
and the caught error. The names otp, timestamp, message and sendResult
are declared with const inside the try block (lines 59-76) and are not
in scope in the catch block. -/
def startCatchEnv (chatId : Int) (username : String) (startTime : Nat) :
    List (String × String) :=
  [("chatId", toString chatId), ("username", username),
   ("startTime", toString startTime), ("error", "Error")]

/-- Outcome of one /start event in the webhook variant: the otpStorage
contents afterwards, the messages actually delivered, and the log lines. -/
structure StartResult where
  otpStorage : List (Int × OtpRecord)
  delivered : List (Int × String)
  logs : List String
deriving DecidableEq

/-- The /start handler of the webhook variant (lines 52-91): derive the
display name (username || first_name || user_<chatId>), store the OTP
record, then attempt delivery. firstSendOk and secondSendOk say whether
the two sendMessage calls would succeed if reached. On a first-delivery
failure the catch block builds the fallback text from the variables in
its own lexical scope before it can call sendMessage at all; a failure
there is caught by the inner catch and only logged. -/
def handleStartWebhook (store : List (Int × OtpRecord)) (chatId : Int)
    (tgUsername tgFirstName : Option String) (otp : String) (now : Nat)
    (firstSendOk secondSendOk : Bool) : StartResult :=
  let username := jsOrElse tgUsername
    (jsOrElse tgFirstName ("user_" ++ toString chatId))
  let store1 := mapSet store chatId
    { otp := otp, username := username, timestamp := now }
  let msg1 := "🔐 OTP: *" ++ otp ++
    "*\n⏰ Expires in 10 minutes\n🌐 Use on verification form"
  if firstSendOk then
    { otpStorage := store1, delivered := [(chatId, msg1)],
      logs := ["✅ OTP " ++ otp ++ " sent to " ++ username] }
  else
    match evalTemplate (startCatchEnv chatId username now)
        fallbackTemplate with
    | Except.error e =>
      { otpStorage := store1, delivered := [],
        logs := ["❌ Error in /start handler",
                 "❌ Fallback message also failed: " ++ e] }
    | Except.ok m =>
      if secondSendOk then
        { otpStorage := store1, delivered := [(chatId, m)],
          logs := ["❌ Error in /start handler"] }
      else
        { otpStorage := store1, delivered := [],
          logs := ["❌ Error in /start handler",
                   "❌ Fallback message also failed"] }

/-- Uniqueness of keys in an association-list store; JavaScript Map keys
are unique by construction. -/
def KeysUnique {κ α : Type} (m : List (κ × α)) : Prop :=
  (m.map Prod.fst).Nodup

/-- Every entry of mapSet m k v is either the new pair or an old entry with
a different key. -/
theorem mem_mapSet {κ α : Type} [BEq κ] [LawfulBEq κ] {m : List (κ × α)}
    {k : κ} {v : α} {q : κ × α} (hq : q ∈ mapSet m k v) :
    q = (k, v) ∨ (q ∈ m ∧ q.1 ≠ k) := by
  unfold mapSet at hq
  by_cases h : m.any (fun e => e.1 == k) = true
  · rw [if_pos h] at hq
    rcases List.mem_map.mp hq with ⟨e, he, hfe⟩
    by_cases hek : (e.1 == k) = true
    · left
      rw [if_pos hek] at hfe
      exact hfe.symm
    · right
      rw [if_neg hek] at hfe
      subst hfe
      exact ⟨he, fun hk => hek (beq_iff_eq.mpr hk)⟩
  · rw [if_neg h] at hq
    rcases List.mem_append.mp hq with hm | hs
    · right
      refine ⟨hm, fun hk => h ?_⟩
      exact List.any_eq_true.mpr ⟨q, hm, beq_iff_eq.mpr hk⟩
    · left
      simpa using hs

/-- Finding the key in the replace branch of mapSet. -/
theorem find?_mapSet_replace {κ α : Type} [BEq κ] [LawfulBEq κ]
    {m : List (κ × α)} {k : κ} (v : α)
    (h : m.any (fun e => e.1 == k) = true) :
    (m.map (fun e => if e.1 == k then (k, v) else e)).find?
      (fun e => e.1 == k) = some (k, v) := by
  induction m with
  | nil => simp at h
  | cons e es ih =>
    by_cases hek : (e.1 == k) = true
    · simp [List.find?_cons, hek]
    · have h2 : es.any (fun e => e.1 == k) = true := by
        simpa [hek] using h
      simp [List.find?_cons, hek, ih h2]

/-- Finding the key in the append branch of mapSet. -/
theorem find?_mapSet_append {κ α : Type} [BEq κ] [LawfulBEq κ]
    {m : List (κ × α)} {k : κ} (v : α)
    (h : m.any (fun e => e.1 == k) = false) :
    (m ++ [(k, v)]).find? (fun e => e.1 == k) = some (k, v) := by
  induction m with
  | nil => simp [List.find?_cons]
  | cons e es ih =>
    simp only [List.any_cons, Bool.or_eq_false_iff] at h
    simp [List.find?_cons, h.1, ih h.2]

/-- Looking up the key just set returns the value just set. -/
theorem mapGet_mapSet_self {κ α : Type} [BEq κ] [LawfulBEq κ]
    (m : List (κ × α)) (k : κ) (v : α) :
    mapGet (mapSet m k v) k = some v := by
  unfold mapGet mapSet
  by_cases h : m.any (fun e => e.1 == k) = true
  · rw [if_pos h, find?_mapSet_replace v h]
    rfl
  · have hfalse : m.any (fun e => e.1 == k) = false := by
      cases hx : m.any (fun e => e.1 == k) with
      | true => exact absurd hx h
      | false => rfl
    rw [if_neg h, find?_mapSet_append v hfalse]
    rfl

/-- A successful mapGet means the pair is in the list. -/
theorem mapGet_eq_some_mem {κ α : Type} [BEq κ] [LawfulBEq κ]
    {m : List (κ × α)} {k : κ} {v : α} (h : mapGet m k = some v) :
    (k, v) ∈ m := by
  unfold mapGet at h
  rcases Option.map_eq_some'.mp h with ⟨p, hp, hpv⟩
  have hpk := List.find?_some hp
  have hpm := List.mem_of_find?_eq_some hp
  obtain ⟨pk, pv⟩ := p
  have : pk = k := beq_iff_eq.mp hpk
  subst this
  subst hpv
  exact hpm

/-- When no record matches, the scan finds nothing. -/
theorem findFirstMatch_eq_none {store : List (Int × OtpRecord)}
    {u o : String} (h : ∀ p ∈ store, matchesCred p.2 u o = false) :
    findFirstMatch store u o = none := by
  unfold findFirstMatch
  exact List.find?_eq_none.mpr (fun p hp => by simp [h p hp])

/-- When exactly one record matches, the scan finds that record. -/
theorem findFirstMatch_eq_some_unique {store : List (Int × OtpRecord)}
    {u o : String} {R : Int} {rec : OtpRecord}
    (hm : (R, rec) ∈ store) (hmatch : matchesCred rec u o = true)
    (huniq : ∀ p ∈ store, matchesCred p.2 u o = true → p = (R, rec)) :
    findFirstMatch store u o = some (R, rec) := by
  unfold findFirstMatch
  cases hf : store.find? (fun e => matchesCred e.2 u o) with
  | none =>
    exfalso
    have := List.find?_eq_none.mp hf (R, rec) hm
    simp [hmatch] at this
  | some q =>
    have hqm := List.mem_of_find?_eq_some hf
    have hqp := List.find?_some hf
    have hq : matchesCred q.2 u o = true := by simpa using hqp
    rw [huniq q hqm hq]

/-- Submitted usernames equal up to lowercasing scan identically. -/
theorem findFirstMatch_congr_username {store : List (Int × OtpRecord)}
    {u1 u2 o : String} (h : jsToLower u1 = jsToLower u2) :
    findFirstMatch store u1 o = findFirstMatch store u2 o := by
  simp only [findFirstMatch, matchesCred, h]

/-- mapSet preserves uniqueness of keys. -/
theorem keysUnique_mapSet {κ α : Type} [BEq κ] [LawfulBEq κ]
    {m : List (κ × α)} (k : κ) (v : α) (h : KeysUnique m) :
    KeysUnique (mapSet m k v) := by
  unfold KeysUnique mapSet at *
  by_cases ha : m.any (fun e => e.1 == k) = true
  · rw [if_pos ha]
    have heq : (m.map (fun e => if e.1 == k then (k, v) else e)).map
        Prod.fst = m.map Prod.fst := by
      rw [List.map_map]
      apply List.map_congr_left
      intro e _
      by_cases hek : (e.1 == k) = true
      · simp [hek, (beq_iff_eq.mp hek).symm]
      · simp [hek]
    rw [heq]
    exact h
  · rw [if_neg ha, List.map_append]
    rw [List.nodup_append]
    refine ⟨h, List.nodup_singleton k, ?_⟩
    intro a ham hak
    simp only [List.map_cons, List.map_nil, List.mem_singleton] at hak
    subst hak
    rcases List.mem_map.mp ham with ⟨e, he, hek⟩
    exact ha (List.any_eq_true.mpr ⟨e, he, by simp [hek]⟩)

/-- Filtering preserves uniqueness of keys; mapDelete and the sweeper are
filters. -/
theorem keysUnique_filter {κ α : Type} {m : List (κ × α)}
    (p : κ × α → Bool) (h : KeysUnique m) : KeysUnique (m.filter p) := by
  unfold KeysUnique at *
  exact (((List.filter_sublist m).map Prod.fst).nodup h)

/-- With both fields present and no matching record, the verify endpoint
answers InvalidCredentials and leaves the state alone. -/
theorem verifyOtp_of_none (st : ServerState) (now : Nat) (sid : String)
    {u o : String} (hu : u ≠ "") (ho : o ≠ "")
    (hfind : findFirstMatch st.otpStorage u o = none) :
    verifyOtp st now sid u o =
      (Except.error VerifyError.InvalidCredentials, st) := by
  have hgu : (u == "") = false := by simp [hu]
  have hgo : (o == "") = false := by simp [ho]
  simp [verifyOtp, hgu, hgo, hfind]

/-- With both fields present and the first matching record expired, the
verify endpoint answers Expired and deletes that record. -/
theorem verifyOtp_of_expired (st : ServerState) (now : Nat) (sid : String)
    {u o : String} {c : Int} {rec : OtpRecord}
    (hu : u ≠ "") (ho : o ≠ "")
    (hfind : findFirstMatch st.otpStorage u o = some (c, rec))
    (hexp : now - rec.timestamp > otpTTLMs) :
    verifyOtp st now sid u o =
      (Except.error VerifyError.Expired,
       { st with otpStorage := mapDelete st.otpStorage c }) := by
  have hgu : (u == "") = false := by simp [hu]
  have hgo : (o == "") = false := by simp [ho]
  simp [verifyOtp, hgu, hgo, hfind, hexp]

/-- With both fields present and the first matching record live, the
verify endpoint succeeds: it answers the fresh session id together with
the stored display name, deletes the record, and stores one verified
session. -/
theorem verifyOtp_of_live (st : ServerState) (now : Nat) (sid : String)
    {u o : String} {c : Int} {rec : OtpRecord}
    (hu : u ≠ "") (ho : o ≠ "")
    (hfind : findFirstMatch st.otpStorage u o = some (c, rec))
    (hlive : ¬ now - rec.timestamp > otpTTLMs) :
    verifyOtp st now sid u o =
      (Except.ok { sessionId := sid, username := rec.username },
       { otpStorage := mapDelete st.otpStorage c,
         userSessions := mapSet st.userSessions sid
           { chatId := c, username := rec.username,
             verified := true, timestamp := now } }) := by
  have hgu : (u == "") = false := by simp [hu]
  have hgo : (o == "") = false := by simp [ho]
  simp [verifyOtp, hgu, hgo, hfind, hlive]

/-- Claim C1, counterexample: the claim promises that a replay of a
(username, code) pair that just succeeded always fails with
InvalidCredentials. In a state where two recipients (chats 1 and 2)
coincidentally share the display name alice and the code 123456 - a state
the invariants do not exclude, since keys are chat ids - the first call
succeeds on chat 1 and the immediate replay succeeds again on chat 2
instead of failing. -/
theorem verify_single_use_cex :
    (verifyOtp
      { otpStorage :=
          [((1 : Int), { otp := "123456", username := "alice", timestamp := 0 }),
           ((2 : Int), { otp := "123456", username := "alice", timestamp := 0 })],
        userSessions := [] } 1000 "sA" "alice" "123456").1 =
      Except.ok { sessionId := "sA", username := "alice" }
    ∧ (verifyOtp (verifyOtp
        { otpStorage :=
            [((1 : Int), { otp := "123456", username := "alice", timestamp := 0 }),
             ((2 : Int), { otp := "123456", username := "alice", timestamp := 0 })],
          userSessions := [] } 1000 "sA" "alice" "123456").2
        1000 "sB" "alice" "123456").1 =
      Except.ok { sessionId := "sB", username := "alice" } := by
  constructor
  · decide
  · decide

/-- Claim C1 (amended): for every recipient R whose live OTP record is the
only record in the store matching the submitted (username, code) pair, a
verify call with that pair and a fresh session id succeeds, deletes that
OTP record, and appends exactly one Session Record with verified = true;
an immediately repeated call with the same pair then fails with
InvalidCredentials. -/
theorem verify_single_use (st : ServerState) (now now2 : Nat)
    (sid sid2 u o : String) (R : Int) (rec : OtpRecord)
    (hu : u ≠ "") (ho : o ≠ "")
    (hmem : mapGet st.otpStorage R = some rec)
    (hmatch : matchesCred rec u o = true)
    (huniq : ∀ p ∈ st.otpStorage, matchesCred p.2 u o = true → p = (R, rec))
    (hlive : ¬ now - rec.timestamp > otpTTLMs)
    (hfresh : st.userSessions.any (fun q => q.1 == sid) = false) :
    verifyOtp st now sid u o =
      (Except.ok { sessionId := sid, username := rec.username },
       { otpStorage := mapDelete st.otpStorage R,
         userSessions := st.userSessions ++
           [(sid, { chatId := R, username := rec.username,
                    verified := true, timestamp := now })] })
    ∧ (verifyOtp
        { otpStorage := mapDelete st.otpStorage R,
          userSessions := st.userSessions ++
            [(sid, { chatId := R, username := rec.username,
                     verified := true, timestamp := now })] }
        now2 sid2 u o).1 = Except.error VerifyError.InvalidCredentials := by
  have hmm : (R, rec) ∈ st.otpStorage := mapGet_eq_some_mem hmem
  have hfind := findFirstMatch_eq_some_unique hmm hmatch huniq
  have hnone : findFirstMatch (mapDelete st.otpStorage R) u o = none := by
    apply findFirstMatch_eq_none
    intro p hp
    have hp2 : p ∈ st.otpStorage ∧ (!(p.1 == R)) = true := by
      simpa [mapDelete] using List.mem_filter.mp hp
    cases hmc : matchesCred p.2 u o with
    | false => rfl
    | true =>
      exfalso
      have hpR := huniq p hp2.1 hmc
      have := hp2.2
      rw [hpR] at this
      simp at this
  constructor
  · have h1 := verifyOtp_of_live st now sid hu ho hfind hlive
    have hset : mapSet st.userSessions sid
        { chatId := R, username := rec.username,
          verified := true, timestamp := now } =
        st.userSessions ++
          [(sid, { chatId := R, username := rec.username,
                   verified := true, timestamp := now })] := by
      unfold mapSet
      rw [hfresh]
      simp
    rw [h1, hset]
  · have h2 := verifyOtp_of_none
      { otpStorage := mapDelete st.otpStorage R,
        userSessions := st.userSessions ++
          [(sid, { chatId := R, username := rec.username,
                   verified := true, timestamp := now })] }
      now2 sid2 hu ho hnone
    rw [h2]

/-- Claim C1, witness: one live record for chat 42 named alice with code
123456; the call succeeds and consumes it, the replay is rejected. -/
theorem verify_single_use_witness :
    verifyOtp
      { otpStorage :=
          [((42 : Int), { otp := "123456", username := "alice", timestamp := 0 })],
        userSessions := [] } 1000 "s1" "alice" "123456" =
      (Except.ok { sessionId := "s1", username := "alice" },
       { otpStorage := mapDelete
           [((42 : Int), { otp := "123456", username := "alice", timestamp := 0 })] 42,
         userSessions := ([] : List (String × SessionRecord)) ++
           [("s1", { chatId := 42, username := "alice",
                     verified := true, timestamp := 1000 })] })
    ∧ (verifyOtp
        { otpStorage := mapDelete
            [((42 : Int), { otp := "123456", username := "alice", timestamp := 0 })] 42,
          userSessions := ([] : List (String × SessionRecord)) ++
            [("s1", { chatId := 42, username := "alice",
                      verified := true, timestamp := 1000 })] }
        2000 "s2" "alice" "123456").1 =
      Except.error VerifyError.InvalidCredentials :=
  verify_single_use
    { otpStorage :=
        [((42 : Int), { otp := "123456", username := "alice", timestamp := 0 })],
      userSessions := [] }
    1000 2000 "s1" "s2" "alice" "123456" 42
    { otp := "123456", username := "alice", timestamp := 0 }
    (by decide) (by decide) (by decide) (by decide) (by decide) (by decide)
    (by decide)

/-- Claim C2: for the record the scan matched on the submitted
(username, code) pair, verification fails with Expired and deletes that
record exactly when now - issuedAt exceeds 10 minutes, and succeeds
otherwise; concretely, a record issued 601 seconds ago fails with Expired,
a second attempt with the same code afterwards fails with
InvalidCredentials, and a record issued 599 seconds ago succeeds. -/
theorem verify_expiry_threshold (st : ServerState) (now : Nat)
    (sid u o : String) (c : Int) (rec : OtpRecord)
    (hu : u ≠ "") (ho : o ≠ "")
    (hfind : findFirstMatch st.otpStorage u o = some (c, rec)) :
    (now - rec.timestamp > otpTTLMs →
      verifyOtp st now sid u o =
        (Except.error VerifyError.Expired,
         { st with otpStorage := mapDelete st.otpStorage c }))
    ∧ (¬ now - rec.timestamp > otpTTLMs →
      (verifyOtp st now sid u o).1 =
        Except.ok { sessionId := sid, username := rec.username })
    ∧ ((verifyOtp st now sid u o).1 = Except.error VerifyError.Expired ↔
        now - rec.timestamp > otpTTLMs)
    ∧ verifyOtp
        { otpStorage :=
            [((7 : Int), { otp := "654321", username := "bob", timestamp := 0 })],
          userSessions := [] } 601000 "t1" "bob" "654321" =
        (Except.error VerifyError.Expired,
         { otpStorage := [], userSessions := [] })
    ∧ (verifyOtp { otpStorage := [], userSessions := [] }
        601500 "t2" "bob" "654321").1 =
        Except.error VerifyError.InvalidCredentials
    ∧ (verifyOtp
        { otpStorage :=
            [((7 : Int), { otp := "654321", username := "bob", timestamp := 0 })],
          userSessions := [] } 599000 "t3" "bob" "654321").1 =
        Except.ok { sessionId := "t3", username := "bob" } := by
  refine ⟨?_, ?_, ?_, by decide, by decide, by decide⟩
  · intro hexp
    exact verifyOtp_of_expired st now sid hu ho hfind hexp
  · intro hlive
    rw [verifyOtp_of_live st now sid hu ho hfind hlive]
  · constructor
    · intro h
      by_contra hlive
      rw [verifyOtp_of_live st now sid hu ho hfind hlive] at h
      simp at h
    · intro hexp
      rw [verifyOtp_of_expired st now sid hu ho hfind hexp]

/-- Claim C2, witness: a record issued at time 0 checked at 601000 ms is
expired and consumed. -/
theorem verify_expiry_threshold_witness :
    verifyOtp
      { otpStorage :=
          [((9 : Int), { otp := "111222", username := "carol", timestamp := 0 })],
        userSessions := [] } 601000 "w1" "carol" "111222" =
      (Except.error VerifyError.Expired,
       { otpStorage := mapDelete
           [((9 : Int), { otp := "111222", username := "carol", timestamp := 0 })] 9,
         userSessions := [] }) :=
  (verify_expiry_threshold
      { otpStorage :=
          [((9 : Int), { otp := "111222", username := "carol", timestamp := 0 })],
        userSessions := [] }
      601000 "w1" "carol" "111222" 9
      { otp := "111222", username := "carol", timestamp := 0 }
      (by decide) (by decide) (by decide)).1 (by decide)

/-- Claim C3, counterexample: the claim promises that after a new OTP is
issued for a recipient, a verification attempt with the old code always
fails with InvalidCredentials. The generator gives no uniqueness
guarantee, so the new code can coincide with the old one; here chat 7
holds code 222222, a fresh /start issues 222222 again, and the old code
still verifies. -/
theorem otp_supersede_cex :
    (verifyOtp
      (handleStart
        { otpStorage :=
            [((7 : Int), { otp := "222222", username := "bob", timestamp := 0 })],
          userSessions := [] } 7 (some "bob") none "222222" 1000)
      2000 "sC" "bob" "222222").1 =
      Except.ok { sessionId := "sC", username := "bob" } := by decide

/-- Claim C3 (amended): the OTP store keeps at most one record per
recipient identity, and issuing a new OTP for R unconditionally
overwrites any prior unconsumed record for R; provided the new code
differs from the old one and no other recipient's record matches the old
(username, code) pair, a verification attempt using the old code for R's
display name then fails with InvalidCredentials. -/
theorem otp_supersede (st : ServerState) (R : Int)
    (tgU tgF : Option String) (newOtp : String) (now now2 : Nat)
    (sid : String) (old : OtpRecord)
    (huniq : KeysUnique st.otpStorage)
    (hold : mapGet st.otpStorage R = some old)
    (honly : ∀ p ∈ st.otpStorage,
      matchesCred p.2 old.username old.otp = true → p.1 = R)
    (hneq : newOtp ≠ old.otp)
    (hu : old.username ≠ "") (ho : old.otp ≠ "") :
    KeysUnique (handleStart st R tgU tgF newOtp now).otpStorage
    ∧ mapGet (handleStart st R tgU tgF newOtp now).otpStorage R =
        some { otp := newOtp, username := deriveDisplayName tgU tgF,
               timestamp := now }
    ∧ (∀ p ∈ (handleStart st R tgU tgF newOtp now).otpStorage, p.1 = R →
        p = (R, { otp := newOtp, username := deriveDisplayName tgU tgF,
                  timestamp := now }))
    ∧ (verifyOtp (handleStart st R tgU tgF newOtp now) now2 sid
        old.username old.otp).1 =
        Except.error VerifyError.InvalidCredentials := by
  have hnone : findFirstMatch
      (handleStart st R tgU tgF newOtp now).otpStorage
      old.username old.otp = none := by
    apply findFirstMatch_eq_none
    intro p hp
    rcases mem_mapSet hp with heq | ⟨hpm, hpk⟩
    · subst heq
      simp [matchesCred, hneq]
    · cases hmc : matchesCred p.2 old.username old.otp with
      | false => rfl
      | true => exact absurd (honly p hpm hmc) hpk
  refine ⟨?_, ?_, ?_, ?_⟩
  · exact keysUnique_mapSet R _ huniq
  · exact mapGet_mapSet_self st.otpStorage R _
  · intro p hp hpR
    rcases mem_mapSet hp with heq | ⟨_, hpk⟩
    · exact heq
    · exact absurd hpR hpk
  · rw [verifyOtp_of_none _ now2 sid hu ho hnone]

/-- Claim C3, witness: chat 5 holds code 333333; reissuing code 444444
overwrites it and the old code is rejected. -/
theorem otp_supersede_witness :
    KeysUnique (handleStart
      { otpStorage :=
          [((5 : Int), { otp := "333333", username := "dave", timestamp := 0 })],
        userSessions := [] } 5 (some "dave") none "444444" 1000).otpStorage
    ∧ mapGet (handleStart
        { otpStorage :=
            [((5 : Int), { otp := "333333", username := "dave", timestamp := 0 })],
          userSessions := [] } 5 (some "dave") none "444444" 1000).otpStorage 5 =
        some { otp := "444444", username := deriveDisplayName (some "dave") none,
               timestamp := 1000 }
    ∧ (∀ p ∈ (handleStart
        { otpStorage :=
            [((5 : Int), { otp := "333333", username := "dave", timestamp := 0 })],
          userSessions := [] } 5 (some "dave") none "444444" 1000).otpStorage,
        p.1 = 5 →
        p = (5, { otp := "444444",
                  username := deriveDisplayName (some "dave") none,
                  timestamp := 1000 }))
    ∧ (verifyOtp (handleStart
        { otpStorage :=
            [((5 : Int), { otp := "333333", username := "dave", timestamp := 0 })],
          userSessions := [] } 5 (some "dave") none "444444" 1000) 2000 "w2"
        (OtpRecord.mk "333333" "dave" 0).username
        (OtpRecord.mk "333333" "dave" 0).otp).1 =
        Except.error VerifyError.InvalidCredentials :=
  otp_supersede
    { otpStorage :=
        [((5 : Int), { otp := "333333", username := "dave", timestamp := 0 })],
      userSessions := [] }
    5 (some "dave") none "444444" 1000 2000 "w2"
    { otp := "333333", username := "dave", timestamp := 0 }
    (by unfold KeysUnique; decide) (by decide) (by decide) (by decide)
    (by decide) (by decide)

/-- Claim C4: for a live record with display name D and code C that the
scan finds under its own name, any submitted username equal to D up to
letter case succeeds with the same record, and both the verify response
and the subsequent session lookup report the stored display name D in its
original casing, with verified = true. -/
theorem verify_case_insensitive (st : ServerState) (now : Nat)
    (sid u : String) (R : Int) (rec : OtpRecord)
    (hfind : findFirstMatch st.otpStorage rec.username rec.otp = some (R, rec))
    (hcase : jsToLower u = jsToLower rec.username)
    (hu : u ≠ "") (ho : rec.otp ≠ "")
    (hlive : ¬ now - rec.timestamp > otpTTLMs) :
    (verifyOtp st now sid u rec.otp).1 =
      Except.ok { sessionId := sid, username := rec.username }
    ∧ getSession (verifyOtp st now sid u rec.otp).2 sid =
        some { chatId := R, username := rec.username,
               verified := true, timestamp := now } := by
  have hfindu : findFirstMatch st.otpStorage u rec.otp = some (R, rec) := by
    rw [findFirstMatch_congr_username hcase, hfind]
  have h1 := verifyOtp_of_live st now sid hu ho hfindu hlive
  rw [h1]
  constructor
  · rfl
  · exact mapGet_mapSet_self st.userSessions sid _

/-- Claim C4, witness: the code of alice (chat 42) submitted under the
username ALICE succeeds, and both responses carry the stored casing
alice. -/
theorem verify_case_insensitive_witness :
    (verifyOtp
      { otpStorage :=
          [((42 : Int), { otp := "123456", username := "alice", timestamp := 0 })],
        userSessions := [] } 1000 "s9"
      "ALICE" (OtpRecord.mk "123456" "alice" 0).otp).1 =
      Except.ok { sessionId := "s9", username := "alice" }
    ∧ getSession (verifyOtp
        { otpStorage :=
            [((42 : Int), { otp := "123456", username := "alice", timestamp := 0 })],
          userSessions := [] } 1000 "s9"
        "ALICE" (OtpRecord.mk "123456" "alice" 0).otp).2 "s9" =
        some { chatId := 42, username := "alice",
               verified := true, timestamp := 1000 } :=
  verify_case_insensitive
    { otpStorage :=
        [((42 : Int), { otp := "123456", username := "alice", timestamp := 0 })],
      userSessions := [] }
    1000 "s9" "ALICE" 42 { otp := "123456", username := "alice", timestamp := 0 }
    (by decide) (by decide) (by decide) (by decide) (by decide)

/-- Claim C5, counterexample: the period passed to setInterval for the
sweeper is not 10 minutes. -/
theorem sweep_interval_cex : sweepIntervalMs ≠ 10 * 60 * 1000 := by decide

/-- Claim C5 (amended): the expiry sweeper runs on a fixed 5-minute check
interval (both sweeper variants pass 5 * 60 * 1000 ms to setInterval);
the 10-minute figure is the record-age threshold it applies on each tick,
not the period. -/
theorem sweep_interval_five_minutes :
    sweepIntervalMs = 5 * 60 * 1000 ∧ otpTTLMs = 10 * 60 * 1000
    ∧ sweepIntervalMs < otpTTLMs := by
  refine ⟨rfl, rfl, by decide⟩

/-- Claim C6, counterexample: the claim promises each base-36 fragment of
generateSessionId has at least 10 characters. Math.random can return 0.5,
whose base-36 string is 0.i, so substring(2, 15) gives the single
character i and the session id built from two such outcomes is ii, of
length 2. -/
theorem generateSessionId_cex :
    jsRandomToString36 (2 ^ 52) = "0.i"
    ∧ sessionFragment (2 ^ 52) = "i"
    ∧ ¬ 10 ≤ (sessionFragment (2 ^ 52)).length
    ∧ generateSessionId (2 ^ 52) (2 ^ 52) = "ii" := by
  refine ⟨by decide, by decide, by decide, by decide⟩

/-- Claim C6 (amended): for every pair of outcomes of the random source,
generateSessionId returns the concatenation of the two base-36 fragments
of those outcomes, and each fragment has at most 13 characters (13 in the
typical case, but fewer - possibly none - when the outcome's base-36
expansion is short; there is no 10-character lower bound). -/
theorem generateSessionId_fragments (k1 k2 : Nat)
    (h1 : k1 < 2 ^ 53) (h2 : k2 < 2 ^ 53) :
    generateSessionId k1 k2 = sessionFragment k1 ++ sessionFragment k2
    ∧ (sessionFragment k1).length ≤ 13
    ∧ (sessionFragment k2).length ≤ 13 := by
  refine ⟨rfl, ?_, ?_⟩
  · show (((jsRandomToString36 k1).data.drop 2).take 13).length ≤ 13
    rw [List.length_take]
    exact Nat.min_le_left _ _
  · show (((jsRandomToString36 k2).data.drop 2).take 13).length ≤ 13
    rw [List.length_take]
    exact Nat.min_le_left _ _

/-- Claim C6, witness: two in-range random outcomes and the resulting
fragment bounds. -/
theorem generateSessionId_fragments_witness :
    (2 ^ 52 + 1 < 2 ^ 53 ∧ 1 < 2 ^ 53)
    ∧ (generateSessionId (2 ^ 52 + 1) 1 =
        sessionFragment (2 ^ 52 + 1) ++ sessionFragment 1
      ∧ (sessionFragment (2 ^ 52 + 1)).length ≤ 13
      ∧ (sessionFragment 1).length ≤ 13) :=
  ⟨⟨by decide, by decide⟩,
   generateSessionId_fragments (2 ^ 52 + 1) 1 (by decide) (by decide)⟩

/-- Claim C7: the code of the webhook variant contradicts its own intent
(the comment Fallback: send simple text message). When the first delivery
fails, the catch block's fallback template references otp, which is
block-scoped to the try block and not visible in the catch block; its
evaluation raises ReferenceError before sendMessage can be called, so no
plain-text fallback containing the code is ever sent - even when a second
delivery would succeed - and only the fallback-also-failed line is
logged. The stored OTP record is indeed kept. -/
theorem start_fallback_scope_bug :
    evalTemplate (startCatchEnv 1 "alice" 0) fallbackTemplate =
      Except.error "ReferenceError: otp is not defined"
    ∧ (handleStartWebhook [] 1 (some "alice") none "123456" 0
        false true).delivered = []
    ∧ (handleStartWebhook [] 1 (some "alice") none "123456" 0
        false true).logs =
        ["❌ Error in /start handler",
         "❌ Fallback message also failed: ReferenceError: otp is not defined"]
    ∧ mapGet (handleStartWebhook [] 1 (some "alice") none "123456" 0
        false true).otpStorage 1 =
        some { otp := "123456", username := "alice", timestamp := 0 } := by
  refine ⟨by decide, by decide, by decide, by decide⟩

/-- Claim C8: a sweeper tick deletes exactly the OTP records whose age
exceeds 10 minutes: nothing older than the threshold survives, every
record at most 10 minutes old is still present unchanged, nothing new
appears, and the session store is untouched. -/
theorem sweep_frame (st : ServerState) (now : Nat) :
    (∀ p ∈ (sweepTick st now).otpStorage, ¬ now - p.2.timestamp > otpTTLMs)
    ∧ (∀ p ∈ st.otpStorage, now - p.2.timestamp ≤ otpTTLMs →
        p ∈ (sweepTick st now).otpStorage)
    ∧ (∀ p ∈ (sweepTick st now).otpStorage, p ∈ st.otpStorage)
    ∧ (sweepTick st now).userSessions = st.userSessions := by
  refine ⟨?_, ?_, ?_, rfl⟩
  · intro p hp
    have h2 := (List.mem_filter.mp hp).2
    simpa using h2
  · intro p hp hage
    apply List.mem_filter.mpr
    refine ⟨hp, ?_⟩
    simpa using Nat.not_lt.mpr hage
  · intro p hp
    exact (List.mem_filter.mp hp).1

/-- Claim C8, witness: at time 700000 ms a tick removes the record issued
at 0 (age 700 s) and keeps the one issued at 300000 ms (age 400 s),
leaving sessions alone. -/
theorem sweep_frame_witness :
    ((11 : Int), ({ otp := "777777", username := "erin",
                    timestamp := 300000 } : OtpRecord)) ∈
      (sweepTick
        { otpStorage :=
            [((10 : Int), { otp := "666666", username := "frank", timestamp := 0 }),
             ((11 : Int), { otp := "777777", username := "erin", timestamp := 300000 })],
          userSessions := [] } 700000).otpStorage
    ∧ (sweepTick
        { otpStorage :=
            [((10 : Int), { otp := "666666", username := "frank", timestamp := 0 }),
             ((11 : Int), { otp := "777777", username := "erin", timestamp := 300000 })],
          userSessions := [] } 700000).userSessions = [] :=
  ⟨(sweep_frame
      { otpStorage :=
          [((10 : Int), { otp := "666666", username := "frank", timestamp := 0 }),
           ((11 : Int), { otp := "777777", username := "erin", timestamp := 300000 })],
        userSessions := [] } 700000).2.1
      ((11 : Int), { otp := "777777", username := "erin", timestamp := 300000 })
      (by decide) (by decide),
   (sweep_frame
      { otpStorage :=
          [((10 : Int), { otp := "666666", username := "frank", timestamp := 0 }),
           ((11 : Int), { otp := "777777", username := "erin", timestamp := 300000 })],
        userSessions := [] } 700000).2.2.2⟩

/-- Claim C9: when the first record in store iteration order matching the
submitted pair is expired, verification stops there with Expired and
deletes only that record, even though a later live record also matches;
that later record survives and a subsequent attempt succeeds on it. -/
theorem verify_expired_shadows_live (st : ServerState) (now now2 : Nat)
    (sid sid2 u o : String) (c1 c2 : Int) (r1 r2 : OtpRecord)
    (hu : u ≠ "") (ho : o ≠ "")
    (hfind : findFirstMatch st.otpStorage u o = some (c1, r1))
    (hexp : now - r1.timestamp > otpTTLMs)
    (hfind2 : findFirstMatch (mapDelete st.otpStorage c1) u o = some (c2, r2))
    (hlive : ¬ now2 - r2.timestamp > otpTTLMs) :
    verifyOtp st now sid u o =
      (Except.error VerifyError.Expired,
       { st with otpStorage := mapDelete st.otpStorage c1 })
    ∧ (c2, r2) ∈ (verifyOtp st now sid u o).2.otpStorage
    ∧ (verifyOtp { st with otpStorage := mapDelete st.otpStorage c1 }
        now2 sid2 u o).1 =
        Except.ok { sessionId := sid2, username := r2.username } := by
  have h1 := verifyOtp_of_expired st now sid hu ho hfind hexp
  refine ⟨h1, ?_, ?_⟩
  · rw [h1]
    exact List.mem_of_find?_eq_some hfind2
  · rw [verifyOtp_of_live
      { st with otpStorage := mapDelete st.otpStorage c1 }
      now2 sid2 hu ho hfind2 hlive]

/-- Claim C9, witness: chats 1 and 2 both hold the pair (alice, 123456);
at 601000 ms chat 1's record (issued at 0) is expired while chat 2's
(issued at 100000 ms) is live; the first call fails Expired consuming
only chat 1, and the retry succeeds on chat 2. -/
theorem verify_expired_shadows_live_witness :
    verifyOtp
      { otpStorage :=
          [((1 : Int), { otp := "123456", username := "alice", timestamp := 0 }),
           ((2 : Int), { otp := "123456", username := "alice", timestamp := 100000 })],
        userSessions := [] } 601000 "u1" "alice" "123456" =
      (Except.error VerifyError.Expired,
       { otpStorage := mapDelete
           [((1 : Int), { otp := "123456", username := "alice", timestamp := 0 }),
            ((2 : Int), { otp := "123456", username := "alice", timestamp := 100000 })] 1,
         userSessions := [] })
    ∧ ((2 : Int), ({ otp := "123456", username := "alice",
                     timestamp := 100000 } : OtpRecord)) ∈
        (verifyOtp
          { otpStorage :=
              [((1 : Int), { otp := "123456", username := "alice", timestamp := 0 }),
               ((2 : Int), { otp := "123456", username := "alice", timestamp := 100000 })],
            userSessions := [] } 601000 "u1" "alice" "123456").2.otpStorage
    ∧ (verifyOtp
        { otpStorage := mapDelete
            [((1 : Int), { otp := "123456", username := "alice", timestamp := 0 }),
             ((2 : Int), { otp := "123456", username := "alice", timestamp := 100000 })] 1,
          userSessions := [] } 601000 "u2" "alice" "123456").1 =
        Except.ok { sessionId := "u2", username := "alice" } :=
  verify_expired_shadows_live
    { otpStorage :=
        [((1 : Int), { otp := "123456", username := "alice", timestamp := 0 }),
         ((2 : Int), { otp := "123456", username := "alice", timestamp := 100000 })],
      userSessions := [] }
    601000 601000 "u1" "u2" "alice" "123456" 1 2
    { otp := "123456", username := "alice", timestamp := 0 }
    { otp := "123456", username := "alice", timestamp := 100000 }
    (by decide) (by decide) (by decide) (by decide) (by decide) (by decide)

/-- Exhaustive description of one verify call: exactly one of the four
branches of the endpoint applies. -/
theorem verifyOtp_cases (st : ServerState) (now : Nat) (sid u o : String) :
    ((u == "" || o == "") = true ∧ verifyOtp st now sid u o =
      (Except.error VerifyError.InvalidRequest, st))
    ∨ ((u == "" || o == "") = false
       ∧ findFirstMatch st.otpStorage u o = none
       ∧ verifyOtp st now sid u o =
          (Except.error VerifyError.InvalidCredentials, st))
    ∨ (∃ c rec, (u == "" || o == "") = false
       ∧ findFirstMatch st.otpStorage u o = some (c, rec)
       ∧ now - rec.timestamp > otpTTLMs
       ∧ verifyOtp st now sid u o =
          (Except.error VerifyError.Expired,
           { st with otpStorage := mapDelete st.otpStorage c }))
    ∨ (∃ c rec, (u == "" || o == "") = false
       ∧ findFirstMatch st.otpStorage u o = some (c, rec)
       ∧ ¬ now - rec.timestamp > otpTTLMs
       ∧ verifyOtp st now sid u o =
          (Except.ok { sessionId := sid, username := rec.username },
           { otpStorage := mapDelete st.otpStorage c,
             userSessions := mapSet st.userSessions sid
               { chatId := c, username := rec.username,
                 verified := true, timestamp := now } })) := by
  by_cases hg : (u == "" || o == "") = true
  · left
    refine ⟨hg, ?_⟩
    unfold verifyOtp
    rw [if_pos hg]
  · have hgf : (u == "" || o == "") = false := by
      cases hx : (u == "" || o == "") with
      | true => exact absurd hx hg
      | false => rfl
    cases hfind : findFirstMatch st.otpStorage u o with
    | none =>
      right; left
      refine ⟨hgf, rfl, ?_⟩
      unfold verifyOtp
      rw [if_neg hg, hfind]
    | some p =>
      obtain ⟨c, rec⟩ := p
      by_cases hexp : now - rec.timestamp > otpTTLMs
      · right; right; left
        refine ⟨c, rec, hgf, rfl, hexp, ?_⟩
        simp [verifyOtp, hg, hfind, hexp]
      · right; right; right
        refine ⟨c, rec, hgf, rfl, hexp, ?_⟩
        simp [verifyOtp, hg, hfind, hexp]

/-- Claim C10: a verify call failing with InvalidRequest or
InvalidCredentials mutates nothing - both stores are exactly as before;
only the Expired outcome (deleting the one matched record) and the
success outcome (deleting the matched record and writing one session)
change state. -/
theorem verify_failure_atomic (st : ServerState) (now : Nat)
    (sid u o : String) :
    ((verifyOtp st now sid u o).1 = Except.error VerifyError.InvalidRequest →
      (verifyOtp st now sid u o).2 = st)
    ∧ ((verifyOtp st now sid u o).1 =
        Except.error VerifyError.InvalidCredentials →
      (verifyOtp st now sid u o).2 = st)
    ∧ ((verifyOtp st now sid u o).1 = Except.error VerifyError.Expired →
      ∃ c rec, findFirstMatch st.otpStorage u o = some (c, rec)
        ∧ now - rec.timestamp > otpTTLMs
        ∧ (verifyOtp st now sid u o).2 =
            { st with otpStorage := mapDelete st.otpStorage c }
        ∧ (verifyOtp st now sid u o).2.userSessions = st.userSessions)
    ∧ (∀ v, (verifyOtp st now sid u o).1 = Except.ok v →
      ∃ c rec, findFirstMatch st.otpStorage u o = some (c, rec)
        ∧ (verifyOtp st now sid u o).2 =
            { otpStorage := mapDelete st.otpStorage c,
              userSessions := mapSet st.userSessions sid
                { chatId := c, username := rec.username,
                  verified := true, timestamp := now } }) := by
  rcases verifyOtp_cases st now sid u o with
    ⟨-, heq⟩ | ⟨-, -, heq⟩ | ⟨c, rec, -, hfind, hexp, heq⟩ |
    ⟨c, rec, -, hfind, hexp, heq⟩ <;> rw [heq]
  · exact ⟨fun _ => rfl, fun h => by simp at h, fun h => by simp at h,
      fun v h => by simp at h⟩
  · exact ⟨fun h => by simp at h, fun _ => rfl, fun h => by simp at h,
      fun v h => by simp at h⟩
  · exact ⟨fun h => by simp at h, fun h => by simp at h,
      fun _ => ⟨c, rec, hfind, hexp, rfl, rfl⟩, fun v h => by simp at h⟩
  · exact ⟨fun h => by simp at h, fun h => by simp at h,
      fun h => by simp at h, fun v _ => ⟨c, rec, hfind, rfl⟩⟩

/-- Claim C10, witness: a call with a pair that matches nothing answers
InvalidCredentials and leaves the single-record state exactly as it was,
and a call with a missing username likewise leaves it untouched. -/
theorem verify_failure_atomic_witness :
    (verifyOtp
      { otpStorage :=
          [((3 : Int), { otp := "888999", username := "gail", timestamp := 0 })],
        userSessions := [] } 500 "w3" "zoe" "000000").2 =
      { otpStorage :=
          [((3 : Int), { otp := "888999", username := "gail", timestamp := 0 })],
        userSessions := [] }
    ∧ (verifyOtp
        { otpStorage :=
            [((3 : Int), { otp := "888999", username := "gail", timestamp := 0 })],
          userSessions := [] } 500 "w3" "" "000000").2 =
      { otpStorage :=
          [((3 : Int), { otp := "888999", username := "gail", timestamp := 0 })],
        userSessions := [] } :=
  ⟨(verify_failure_atomic
      { otpStorage :=
          [((3 : Int), { otp := "888999", username := "gail", timestamp := 0 })],
        userSessions := [] } 500 "w3" "zoe" "000000").2.1 (by decide),
   (verify_failure_atomic
      { otpStorage :=
          [((3 : Int), { otp := "888999", username := "gail", timestamp := 0 })],
        userSessions := [] } 500 "w3" "" "000000").1 (by decide)⟩
